import Mathlib

/-!
Shallow embedding of the Real-Time Stock Market Data Observation Platform
(a FastAPI gateway over yfinance) for verification of its specification.

Source files embedded:
 - src/main/src/metrics.py   (Prometheus metrics registry and middleware)
 - src/main/src/main.py      (route handlers)
 - src/main/src/routes/options.py (options-chain route handler)

Python exceptions are modelled by an explicit exception type, fallible code
by Except, Python dicts by association lists with Python dict-assignment
semantics, pandas frames by lists of rows, and float values by Rat.
-/

/-- Python exception values as they matter to this app: FastAPI/Starlette
HTTPException (status code and detail) versus every other exception
(type name and message). -/
inductive PyExc where
  | httpException (statusCode : Nat) (detail : String)
  | other (typeName : String) (msg : String)
deriving DecidableEq

/-- Python str(e). Starlette HTTPException.__str__ renders
"{status_code}: {detail}"; for other exceptions we carry str(e) directly. -/
def pyStr : PyExc → String
  | PyExc.httpException code detail => toString code ++ ": " ++ detail
  | PyExc.other _ msg => msg

/-- Python type(e).__name__, as used by the error counter label. -/
def excTypeName : PyExc → String
  | PyExc.httpException _ _ => "HTTPException"
  | PyExc.other n _ => n

/-- JSON-serializable values returned by the handlers. -/
inductive JSON where
  | null
  | str (s : String)
  | num (q : Rat)
  | int (n : Int)
  | obj (fields : List (String × JSON))
  | arr (elems : List JSON)

/-- Field lookup in a JSON object (none when absent or not an object). -/
def jsonField : JSON → String → Option JSON
  | JSON.obj fields, k => fields.lookup k
  | _, _ => none

/-- One bar of a pandas history frame: timestamp index plus OHLCV columns. -/
structure Row where
  ts : String
  open_ : Rat
  high : Rat
  low : Rat
  close : Rat
  volume : Int
deriving DecidableEq

/-- Upstream yfinance provider behaviour for one request, per operation:
each field models one provider call, which either returns data or raises. -/
structure Provider where
  /-- stock.history(period=period, interval=interval) as a list of bars. -/
  history : String → String → String → Except PyExc (List Row)
  /-- stock.info as a Python dict. -/
  info : String → Except PyExc (List (String × JSON))
  /-- stock.dividends as a timestamp-to-amount series. -/
  dividends : String → Except PyExc (List (String × Rat))
  /-- stock.earnings(frequency=frequency) as a frame rendered to a dict. -/
  earnings : String → String → Except PyExc (List (String × JSON))
  /-- stock.options: the available expiration dates. -/
  options : String → Except PyExc (List String)
  /-- stock.option_chain(date): the calls and puts frames as record lists. -/
  option_chain : String → String → Except PyExc (List JSON × List JSON)

/- ===================== metrics.py ===================== -/

/-- An inbound HTTP request as the middleware sees it: request.url.path is
the concrete path of the request; routeTemplate is the matched route's raw
path template (available from the app's route table, carried here so that
properties about it can be stated). -/
structure Request where
  urlPath : String
  routeTemplate : String

/-- Process-wide metrics registry state (metrics.py lines 10-42): counters
are multisets of label values (one entry per increment), the request-latency
histogram is the list of its (endpoint, duration) observations. -/
structure MetricsState where
  /-- REQUEST_COUNT: one entry per increment, labelled by endpoint. -/
  requestCount : List String
  /-- REQUEST_LATENCY: one (endpoint, duration) entry per observation. -/
  latencyObs : List (String × Rat)
  /-- ERROR_COUNT: one entry per increment, labelled by error type name. -/
  errorCount : List String

/-- The registry at process start: no samples. -/
def initMetrics : MetricsState := ⟨[], [], []⟩

/-- PrometheusMiddleware.dispatch (metrics.py lines 49-68). The handler's
outcome and the two wall-clock readings are inputs: endpoint is
request.url.path; the request counter is incremented before dispatch; on
success the latency is observed; on an exception the error counter is
incremented by type(e).__name__ and the exception is re-raised unchanged. -/
def dispatch (m : MetricsState) (request : Request)
    (handlerResult : Except PyExc JSON) (startTime endTime : Rat) :
    MetricsState × Except PyExc JSON :=
  let endpoint := request.urlPath
  let m1 : MetricsState := { m with requestCount := m.requestCount ++ [endpoint] }
  match handlerResult with
  | Except.ok response =>
      let duration := endTime - startTime
      ({ m1 with latencyObs := m1.latencyObs ++ [(endpoint, duration)] },
       Except.ok response)
  | Except.error e =>
      ({ m1 with errorCount := m1.errorCount ++ [excTypeName e] },
       Except.error e)

/-- One inbound request for a run of the middleware: the request, the
handler's outcome, and the wall-clock readings around the handler. -/
structure InboundRequest where
  req : Request
  result : Except PyExc JSON
  t0 : Rat
  t1 : Rat

/-- Metrics state after the middleware processes a sequence of requests. -/
def runRequests (m : MetricsState) (rs : List InboundRequest) : MetricsState :=
  rs.foldl (fun acc r => (dispatch acc r.req r.result r.t0 r.t1).1) m

/-- Number of latency observations recorded for one endpoint label. -/
def latencyCount (m : MetricsState) (endpoint : String) : Nat :=
  (m.latencyObs.filter (fun o => o.1 = endpoint)).length

/-- Whether a handler outcome is a success (a response, not an exception). -/
def resultOk : Except PyExc JSON → Bool
  | Except.ok _ => true
  | Except.error _ => false

/-- The raw path templates of the app's routes (main.py route decorators and
options.py router, whose APIRouter has prefix "/stock"). -/
def routeTemplates : List String :=
  ["/metrics", "/",
   "/stock/\x7bticker\x7d/price",
   "/stock/\x7bticker\x7d/historical",
   "/stock/\x7bticker\x7d/info",
   "/stock/\x7bticker\x7d/dividends",
   "/stock/\x7bticker\x7d/earnings",
   "/stocks/batch",
   "/stock/\x7bticker\x7d/options"]

/- ===================== main.py route handlers ===================== -/

/-- Handler-level metric effects: track_symbol_request(symbol) increments
SYMBOL_REQUESTS (metrics.py lines 71-73), and entering a
`with YFINANCE_CALLS.labels(operation=op).time():` block records one
duration observation for label op on every exit path. Handlers are embedded
as (emitted events, outcome); the events a handler emits do not depend on
the outcome because the counter increment precedes the upstream call and
the timer's context manager records on both normal and exception exit. -/
inductive MetricEvent where
  | symbolRequest (symbol : String)
  | yfinanceTimer (op : String)
deriving DecidableEq

/-- The `except Exception as e: raise HTTPException(status_code=400,
detail=str(e))` boundary shared by the main.py handlers. Note that it also
catches HTTPException values raised inside the try block. -/
def catch400 : Except PyExc JSON → Except PyExc JSON
  | Except.ok v => Except.ok v
  | Except.error e => Except.error (PyExc.httpException 400 (pyStr e))

/-- The options.py variant of the handler boundary: detail is
"Error fetching options data: " followed by str(e). -/
def catch400options : Except PyExc JSON → Except PyExc JSON
  | Except.ok v => Except.ok v
  | Except.error e =>
      Except.error (PyExc.httpException 400 ("Error fetching options data: " ++ pyStr e))

/-- HTTP status the client observes for a handler outcome: 200 for a JSON
response, the HTTPException's status code when one propagates, 500 when a
non-HTTP exception escapes (FastAPI's fallback). -/
def httpStatus : Except PyExc JSON → Nat
  | Except.ok _ => 200
  | Except.error (PyExc.httpException code _) => code
  | Except.error (PyExc.other _ _) => 500

/-- GET /stock/\x7bticker\x7d/price (main.py lines 41-58). The 1-day history is
fetched; if empty, HTTPException(404) is raised inside the handler's own
try block, so catch400 converts it (and any upstream exception) to a 400. -/
def get_current_price (p : Provider) (ticker now : String) :
    List MetricEvent × Except PyExc JSON :=
  ([MetricEvent.symbolRequest ticker, MetricEvent.yfinanceTimer "get_price"],
   catch400 (match p.history ticker "1d" "1d" with
    | Except.error e => Except.error e
    | Except.ok [] =>
        Except.error (PyExc.httpException 404 ("No data found for ticker " ++ ticker))
    | Except.ok (r :: rest) =>
        Except.ok (JSON.obj
          [("ticker", JSON.str ticker),
           ("current_price", JSON.num ((r :: rest).getLast (List.cons_ne_nil r rest)).close),
           ("volume", JSON.int ((r :: rest).getLast (List.cons_ne_nil r rest)).volume),
           ("timestamp", JSON.str now)])))

/-- Rendering of history.to_dict(orient='index'). -/
def historyToJSON (rows : List Row) : JSON :=
  JSON.obj (rows.map (fun r => (r.ts,
    JSON.obj [("Open", JSON.num r.open_), ("High", JSON.num r.high),
              ("Low", JSON.num r.low), ("Close", JSON.num r.close),
              ("Volume", JSON.int r.volume)])))

/-- GET /stock/\x7bticker\x7d/historical (main.py lines 60-84). The emptiness
check sits outside the timed block but inside the try block, so its
HTTPException(404) is also converted to a 400 by catch400. -/
def get_historical_data (p : Provider) (ticker interval period : String) :
    List MetricEvent × Except PyExc JSON :=
  ([MetricEvent.symbolRequest ticker, MetricEvent.yfinanceTimer "get_historical"],
   catch400 (match p.history ticker period interval with
    | Except.error e => Except.error e
    | Except.ok [] =>
        Except.error (PyExc.httpException 404 ("No historical data found for ticker " ++ ticker))
    | Except.ok history =>
        Except.ok (JSON.obj
          [("ticker", JSON.str ticker),
           ("interval", JSON.str interval),
           ("period", JSON.str period),
           ("data_points", JSON.int history.length),
           ("history", historyToJSON history)])))

/-- Python dict .get(key): the value when present, None when absent. -/
def dictGet (d : List (String × JSON)) (k : String) : JSON :=
  match d.lookup k with
  | some v => v
  | none => JSON.null

/-- GET /stock/\x7bticker\x7d/info (main.py lines 86-113): each company_info
field is info.get(key), so a missing upstream field becomes null. -/
def get_company_info (p : Provider) (ticker : String) :
    List MetricEvent × Except PyExc JSON :=
  ([MetricEvent.symbolRequest ticker, MetricEvent.yfinanceTimer "get_info"],
   catch400 (match p.info ticker with
    | Except.error e => Except.error e
    | Except.ok info =>
      Except.ok (JSON.obj
        [("ticker", JSON.str ticker),
         ("company_info", JSON.obj
           [("longName", dictGet info "longName"),
            ("sector", dictGet info "sector"),
            ("industry", dictGet info "industry"),
            ("website", dictGet info "website"),
            ("marketCap", dictGet info "marketCap"),
            ("employees", dictGet info "fullTimeEmployees"),
            ("country", dictGet info "country"),
            ("city", dictGet info "city"),
            ("summary", dictGet info "longBusinessSummary"),
            ("currency", dictGet info "currency"),
            ("exchange", dictGet info "exchange")])])))

/-- GET /stock/\x7bticker\x7d/dividends (main.py lines 115-130): an empty series
returns a success payload whose dividend_history is a sentinel string. -/
def get_dividend_data (p : Provider) (ticker : String) :
    List MetricEvent × Except PyExc JSON :=
  ([MetricEvent.symbolRequest ticker, MetricEvent.yfinanceTimer "get_dividends"],
   catch400 (match p.dividends ticker with
    | Except.error e => Except.error e
    | Except.ok [] =>
        Except.ok (JSON.obj
          [("ticker", JSON.str ticker),
           ("dividend_history", JSON.str "No dividend data available")])
    | Except.ok dividends =>
        Except.ok (JSON.obj
          [("ticker", JSON.str ticker),
           ("dividend_history",
            JSON.obj (dividends.map (fun kv => (kv.1, JSON.num kv.2))))])))

/-- GET /stock/\x7bticker\x7d/earnings (main.py lines 132-151): an empty series
returns a success payload whose earnings_data is a sentinel string. -/
def get_earnings_data (p : Provider) (ticker frequency : String) :
    List MetricEvent × Except PyExc JSON :=
  ([MetricEvent.symbolRequest ticker, MetricEvent.yfinanceTimer "get_earnings"],
   catch400 (match p.earnings ticker frequency with
    | Except.error e => Except.error e
    | Except.ok [] =>
        Except.ok (JSON.obj
          [("ticker", JSON.str ticker),
           ("earnings_data", JSON.str "No earnings data available")])
    | Except.ok earnings =>
        Except.ok (JSON.obj
          [("ticker", JSON.str ticker),
           ("frequency", JSON.str frequency),
           ("earnings_data", JSON.obj earnings)])))

/-- Python dict assignment d[k] = v: replaces the value at an existing key
in place, otherwise appends the new key at the end. -/
def dictSet : List (String × JSON) → String → JSON → List (String × JSON)
  | [], k, v => [(k, v)]
  | kv :: rest, k, v =>
      if kv.1 = k then (k, v) :: rest else kv :: dictSet rest k v

/-- Body of the per-ticker loop of the batch handler (main.py lines 163-174):
the per-symbol try block maps an upstream exception or an empty 1-day frame
to an object with an "error" field, and a non-empty frame to its last close
and volume. -/
def batchEntry (p : Provider) (ticker : String) : JSON :=
  match p.history ticker "1d" "1d" with
  | Except.error e =>
      JSON.obj [("error", JSON.str ("Failed to fetch data: " ++ pyStr e))]
  | Except.ok [] =>
      JSON.obj [("error", JSON.str "No data found")]
  | Except.ok (r :: rest) =>
      JSON.obj [("current_price", JSON.num ((r :: rest).getLast (List.cons_ne_nil r rest)).close),
                ("volume", JSON.int ((r :: rest).getLast (List.cons_ne_nil r rest)).volume)]

/-- The results dict built by the batch handler loop: one dict assignment per
element of tickers.split(','). -/
def batchResults (p : Provider) (tickers : String) : List (String × JSON) :=
  (tickers.splitOn ",").foldl
    (fun results ticker => dictSet results ticker (batchEntry p ticker)) []

/-- GET /stocks/batch (main.py lines 153-178). yf.Tickers construction only
stores the joined symbol string, so the loop body is the only fallible part
and each failure is confined to its own iteration; the handler returns the
accumulated dict. -/
def get_multiple_stocks (p : Provider) (tickers : String) :
    List MetricEvent × Except PyExc JSON :=
  ([], catch400 (Except.ok (JSON.obj (batchResults p tickers))))

/-- GET /stock/\x7bticker\x7d/options (options.py lines 8-51). Without a date,
the available expiration dates are listed (empty list on none). With a date,
a date outside stock.options raises HTTPException(404), as does an empty
chain — but both sit inside the handler's try block, so catch400options
converts them to 400. -/
def get_options_chain (p : Provider) (ticker : String) (date : Option String) :
    List MetricEvent × Except PyExc JSON :=
  ([],
   catch400options (match date with
    | none =>
      (match p.options ticker with
       | Except.error e => Except.error e
       | Except.ok dates =>
         if dates = [] then
           Except.ok (JSON.obj [("ticker", JSON.str ticker),
                                ("options_dates", JSON.arr [])])
         else
           Except.ok (JSON.obj [("ticker", JSON.str ticker),
                                ("options_dates", JSON.arr (dates.map JSON.str))]))
    | some d =>
      (match p.options ticker with
       | Except.error e => Except.error e
       | Except.ok dates =>
         if d ∉ dates then
           Except.error (PyExc.httpException 404
             ("Expiration date " ++ d ++ " not found for " ++ ticker))
         else
           match p.option_chain ticker d with
           | Except.error e => Except.error e
           | Except.ok ([], []) =>
               Except.error (PyExc.httpException 404
                 ("No options data found for " ++ ticker ++ " on " ++ d))
           | Except.ok (calls, puts) =>
               Except.ok (JSON.obj
                 [("ticker", JSON.str ticker),
                  ("expiration", JSON.str d),
                  ("calls", JSON.arr calls),
                  ("puts", JSON.arr puts)]))))

/- ===================== concrete test data ===================== -/

/-- One concrete bar of a 1-day history window. -/
def rowA : Row := ⟨"2026-10-10 09:30:00", 230, 233, 229, (2317 : Rat) / 10, 1000000⟩

/-- A second concrete bar, so windows with more than one row are covered. -/
def rowB : Row := ⟨"2026-10-10 16:00:00", (2317 : Rat) / 10, 234, 231, 232, 2000000⟩

/-- A provider whose series are all empty, with one known options expiration
date whose chain is empty on both sides. -/
def pEmpty : Provider :=
  { history := fun _ _ _ => Except.ok []
    info := fun _ => Except.ok []
    dividends := fun _ => Except.ok []
    earnings := fun _ _ => Except.ok []
    options := fun _ => Except.ok ["2026-01-16"]
    option_chain := fun _ _ => Except.ok ([], []) }

/-- A provider with data for AAPL and an upstream exception for every other
symbol; AAPL's info dict carries only longName (sector is absent). -/
def pTest : Provider :=
  { history := fun t _ _ =>
      if t = "AAPL" then Except.ok [rowA, rowB]
      else Except.error (PyExc.other "ValueError" "no data for symbol")
    info := fun _ => Except.ok [("longName", JSON.str "Apple Inc.")]
    dividends := fun _ => Except.ok []
    earnings := fun _ _ => Except.ok []
    options := fun _ => Except.ok ["2026-01-16"]
    option_chain := fun _ _ =>
      Except.ok ([JSON.obj [("strike", JSON.num 230)]], []) }

/-- The request the middleware sees for GET /stock/AAPL/price. -/
def priceRequestAAPL : Request :=
  ⟨"/stock/AAPL/price", "/stock/\x7bticker\x7d/price"⟩

/- ===================== claims ===================== -/

/-- C6: when the handler of an inbound request fails with any exception, the
middleware increments the error counter keyed by the exception's type name
and returns the very same exception (no suppression, no substituted
response); the latency histogram is untouched and the request counter keeps
the increment made before dispatch. -/
theorem middleware_counts_error_kind_and_reraises
    (m : MetricsState) (request : Request) (e : PyExc) (t0 t1 : Rat) :
    dispatch m request (Except.error e) t0 t1 =
      ({ requestCount := m.requestCount ++ [request.urlPath],
         latencyObs := m.latencyObs,
         errorCount := m.errorCount ++ [excTypeName e] }, Except.error e) := rfl

/-- C10: a failed request leaves the latency histogram exactly as it was,
while the request counter has gained the pre-dispatch increment for the
request's endpoint and the error counter has gained the exception's kind. -/
theorem failed_request_leaves_latency_histogram_unchanged
    (m : MetricsState) (request : Request) (e : PyExc) (t0 t1 : Rat) :
    ((dispatch m request (Except.error e) t0 t1).1.latencyObs = m.latencyObs) ∧
    ((dispatch m request (Except.error e) t0 t1).1.requestCount =
      m.requestCount ++ [request.urlPath]) ∧
    ((dispatch m request (Except.error e) t0 t1).1.errorCount =
      m.errorCount ++ [excTypeName e]) := ⟨rfl, rfl, rfl⟩

/-- C8: the endpoint label the middleware uses is request.url.path, the
concrete interpolated path of the request — for GET /stock/AAPL/price the
request counter is incremented for label "/stock/AAPL/price", which is not
among the app's route templates, even though the matched route's raw
template is. -/
theorem endpoint_label_is_interpolated_path :
    (dispatch initMetrics priceRequestAAPL (Except.ok (JSON.obj [])) 0 1).1.requestCount
      = ["/stock/AAPL/price"] ∧
    "/stock/AAPL/price" ∉ routeTemplates ∧
    priceRequestAAPL.routeTemplate ∈ routeTemplates := by
  refine ⟨rfl, by decide, by decide⟩

/-- C9 (amended): the price, historical, info, dividends and earnings
handlers each increment the per-symbol request counter for their ticker and
enter exactly one upstream-call timer block labelled with their operation
name, but the batch and options handlers perform neither instrumentation
step. -/
theorem handler_metric_events (p : Provider)
    (ticker now interval period frequency tickers : String) (date : Option String) :
    (get_current_price p ticker now).1 =
      [MetricEvent.symbolRequest ticker, MetricEvent.yfinanceTimer "get_price"] ∧
    (get_historical_data p ticker interval period).1 =
      [MetricEvent.symbolRequest ticker, MetricEvent.yfinanceTimer "get_historical"] ∧
    (get_company_info p ticker).1 =
      [MetricEvent.symbolRequest ticker, MetricEvent.yfinanceTimer "get_info"] ∧
    (get_dividend_data p ticker).1 =
      [MetricEvent.symbolRequest ticker, MetricEvent.yfinanceTimer "get_dividends"] ∧
    (get_earnings_data p ticker frequency).1 =
      [MetricEvent.symbolRequest ticker, MetricEvent.yfinanceTimer "get_earnings"] ∧
    (get_multiple_stocks p tickers).1 = [] ∧
    (get_options_chain p ticker date).1 = [] :=
  ⟨rfl, rfl, rfl, rfl, rfl, rfl, rfl⟩

/-- C9 counterexample: the options and batch handlers emit no metric events
at all — in particular no per-symbol counter increment and no upstream-call
timer — refuting the claim that every handler performs both steps. -/
theorem options_and_batch_handlers_skip_instrumentation :
    (get_options_chain pTest "AAPL" none).1 = [] ∧
    (get_multiple_stocks pTest "AAPL,MSFT").1 = [] ∧
    MetricEvent.symbolRequest "AAPL" ∉ (get_options_chain pTest "AAPL" none).1 ∧
    MetricEvent.yfinanceTimer "get_price" ∉ (get_multiple_stocks pTest "AAPL,MSFT").1 := by
  refine ⟨rfl, rfl, by simp [get_options_chain], by simp [get_multiple_stocks]⟩

/-- Helper: effect of one dispatch step on the per-endpoint request count
and latency-observation count. -/
theorem dispatch_counts (m : MetricsState) (request : Request)
    (res : Except PyExc JSON) (t0 t1 : Rat) (path : String)
    (hp : request.urlPath = path) :
    ((dispatch m request res t0 t1).1.requestCount.count path =
      m.requestCount.count path + 1) ∧
    (latencyCount (dispatch m request res t0 t1).1 path =
      latencyCount m path + (if resultOk res then 1 else 0)) := by
  cases res with
  | ok v =>
      constructor
      · simp [dispatch, hp, List.count_append]
      · simp [dispatch, latencyCount, resultOk, hp, List.filter_append]
  | error e =>
      constructor
      · simp [dispatch, hp, List.count_append]
      · simp [dispatch, latencyCount, resultOk]

/-- Helper: counts after a run of the middleware over a request sequence that
all targets one path, relative to the starting registry state. -/
theorem runRequests_counts (rs : List InboundRequest) (m : MetricsState)
    (path : String) (h : ∀ r ∈ rs, r.req.urlPath = path) :
    ((runRequests m rs).requestCount.count path =
      m.requestCount.count path + rs.length) ∧
    (latencyCount (runRequests m rs) path =
      latencyCount m path + (rs.filter (fun r => resultOk r.result)).length) := by
  induction rs generalizing m with
  | nil => simp [runRequests]
  | cons r rs ih =>
      have hr : r.req.urlPath = path := h r (List.mem_cons_self r rs)
      have hrs : ∀ x ∈ rs, x.req.urlPath = path :=
        fun x hx => h x (List.mem_cons_of_mem r hx)
      have hstep := dispatch_counts m r.req r.result r.t0 r.t1 path hr
      have htail := ih ((dispatch m r.req r.result r.t0 r.t1).1) hrs
      have hrun : runRequests m (r :: rs) =
          runRequests ((dispatch m r.req r.result r.t0 r.t1).1) rs := rfl
      rw [hrun]
      simp only [List.length_cons, List.filter_cons]
      constructor
      · rw [htail.1, hstep.1]
        omega
      · rw [htail.2, hstep.2]
        cases hok : resultOk r.result <;> (simp [hok]; try omega)

/-- C7 (amended): after the middleware processes any sequence of requests
all addressed to the same endpoint path, the request counter for that
path's label equals the number of requests exactly (one increment per
request, made before handler dispatch), and the latency histogram for that
label holds exactly one observation per request whose handler completed
successfully. -/
theorem request_counter_exact_latency_counts_successes
    (rs : List InboundRequest) (path : String)
    (h : ∀ r ∈ rs, r.req.urlPath = path) :
    ((runRequests initMetrics rs).requestCount.count path = rs.length) ∧
    (latencyCount (runRequests initMetrics rs) path =
      (rs.filter (fun r => resultOk r.result)).length) := by
  have := runRequests_counts rs initMetrics path h
  simpa [initMetrics, latencyCount] using this

/-- Three requests to /stock/AAPL/price, the middle one failing. -/
def rsSame : List InboundRequest :=
  [⟨priceRequestAAPL, Except.ok (JSON.obj []), 0, 1⟩,
   ⟨priceRequestAAPL, Except.error (PyExc.other "ValueError" "boom"), 1, 2⟩,
   ⟨priceRequestAAPL, Except.ok (JSON.obj []), 2, 3⟩]

/-- C7 witness: the amended statement applied to a concrete three-request
sequence on one path. -/
theorem request_counter_exact_latency_counts_successes_witness :
    ((runRequests initMetrics rsSame).requestCount.count "/stock/AAPL/price" =
      rsSame.length) ∧
    (latencyCount (runRequests initMetrics rsSame) "/stock/AAPL/price" =
      (rsSame.filter (fun r => resultOk r.result)).length) :=
  request_counter_exact_latency_counts_successes rsSame "/stock/AAPL/price"
    (by intro r hr; fin_cases hr <;> rfl)

/-- One request to /stock/MSFT/price whose handler raises. -/
def rsFailOne : List InboundRequest :=
  [⟨⟨"/stock/MSFT/price", "/stock/\x7bticker\x7d/price"⟩,
    Except.error (PyExc.other "TypeError" "boom"), 0, 1⟩]

/-- C7 counterexample: after a one-request sequence whose handler fails, the
request counter for the path is 1 but the latency histogram holds 0
observations, not 1 — the claim that the histogram holds exactly N
observations after N requests is false. -/
theorem latency_histogram_not_one_observation_per_request :
    ((runRequests initMetrics rsFailOne).requestCount.count "/stock/MSFT/price" = 1) ∧
    ¬ (latencyCount (runRequests initMetrics rsFailOne) "/stock/MSFT/price" =
        rsFailOne.length) := by
  constructor
  · rfl
  · intro hcontra
    simp [latencyCount, runRequests, dispatch, rsFailOne, initMetrics] at hcontra

/-- C1: the four "no rows / unknown date" cases do not reach the client as
404. Each handler raises HTTPException(404) inside its own try block, whose
`except Exception` clause rewraps it, so the client receives 400: shown here
for an empty 1-day price window, an empty historical series, an options
date outside the available expiration set, and a known date whose call and
put sides are both empty. -/
theorem empty_upstream_rows_yield_400_not_404 :
    (httpStatus (get_current_price pEmpty "MSFT" "T").2 = 400 ∧
      httpStatus (get_current_price pEmpty "MSFT" "T").2 ≠ 404) ∧
    (httpStatus (get_historical_data pEmpty "MSFT" "1d" "1mo").2 = 400 ∧
      httpStatus (get_historical_data pEmpty "MSFT" "1d" "1mo").2 ≠ 404) ∧
    (httpStatus (get_options_chain pEmpty "AAPL" (some "2020-01-01")).2 = 400 ∧
      httpStatus (get_options_chain pEmpty "AAPL" (some "2020-01-01")).2 ≠ 404) ∧
    (httpStatus (get_options_chain pEmpty "AAPL" (some "2026-01-16")).2 = 400 ∧
      httpStatus (get_options_chain pEmpty "AAPL" (some "2026-01-16")).2 ≠ 404) := by
  refine ⟨⟨rfl, by decide⟩, ⟨rfl, by decide⟩, ⟨rfl, by decide⟩, ⟨rfl, by decide⟩⟩

/-- C2: whenever the 1-day window is non-empty, the price endpoint succeeds
and its current_price is exactly the last Close of that window and its
volume exactly the last Volume. -/
theorem price_returns_last_close_and_volume
    (p : Provider) (ticker now : String) (rows : List Row) (lastRow : Row)
    (h : p.history ticker "1d" "1d" = Except.ok rows)
    (hl : rows.getLast? = some lastRow) :
    (get_current_price p ticker now).2 = Except.ok (JSON.obj
      [("ticker", JSON.str ticker),
       ("current_price", JSON.num lastRow.close),
       ("volume", JSON.int lastRow.volume),
       ("timestamp", JSON.str now)]) := by
  cases rows with
  | nil => simp at hl
  | cons r rest =>
      have hlast : (r :: rest).getLast (List.cons_ne_nil r rest) = lastRow := by
        rw [List.getLast?_eq_getLast_of_ne_nil (List.cons_ne_nil r rest)] at hl
        exact Option.some.inj hl
      simp [get_current_price, h, catch400, hlast]

/-- C2 witness: the price response for a concrete two-bar window carries the
second bar's close and volume. -/
theorem price_returns_last_close_and_volume_witness :
    (get_current_price pTest "AAPL" "2026-10-10T16:00:05").2 = Except.ok (JSON.obj
      [("ticker", JSON.str "AAPL"),
       ("current_price", JSON.num rowB.close),
       ("volume", JSON.int rowB.volume),
       ("timestamp", JSON.str "2026-10-10T16:00:05")]) :=
  price_returns_last_close_and_volume pTest "AAPL" "2026-10-10T16:00:05"
    [rowA, rowB] rowB rfl rfl

/-- C4: when the dividend series and the earnings series are empty, the
dividends and earnings endpoints succeed (HTTP 200) with the respective
sentinel strings in their data fields — no 404 and no 400 for this case. -/
theorem empty_series_returns_sentinel_success
    (p : Provider) (ticker frequency : String)
    (hd : p.dividends ticker = Except.ok [])
    (he : p.earnings ticker frequency = Except.ok []) :
    ((get_dividend_data p ticker).2 = Except.ok (JSON.obj
      [("ticker", JSON.str ticker),
       ("dividend_history", JSON.str "No dividend data available")])) ∧
    ((get_earnings_data p ticker frequency).2 = Except.ok (JSON.obj
      [("ticker", JSON.str ticker),
       ("earnings_data", JSON.str "No earnings data available")])) ∧
    (httpStatus (get_dividend_data p ticker).2 = 200) ∧
    (httpStatus (get_earnings_data p ticker frequency).2 = 200) := by
  refine ⟨?_, ?_, ?_, ?_⟩ <;>
    simp [get_dividend_data, get_earnings_data, hd, he, catch400, httpStatus]

/-- C4 witness: the sentinel responses for a concrete ticker with empty
dividend and earnings series. -/
theorem empty_series_returns_sentinel_success_witness :
    ((get_dividend_data pEmpty "AAPL").2 = Except.ok (JSON.obj
      [("ticker", JSON.str "AAPL"),
       ("dividend_history", JSON.str "No dividend data available")])) ∧
    ((get_earnings_data pEmpty "AAPL" "yearly").2 = Except.ok (JSON.obj
      [("ticker", JSON.str "AAPL"),
       ("earnings_data", JSON.str "No earnings data available")])) ∧
    (httpStatus (get_dividend_data pEmpty "AAPL").2 = 200) ∧
    (httpStatus (get_earnings_data pEmpty "AAPL" "yearly").2 = 200) :=
  empty_series_returns_sentinel_success pEmpty "AAPL" "yearly" rfl rfl

/-- C5: whenever the upstream profile dict is returned at all, the info
endpoint succeeds with each company_info field equal to info.get(key), and
any key absent from the upstream dict yields null — a missing optional
field never fails the request. -/
theorem info_missing_optional_field_null
    (p : Provider) (ticker : String) (info : List (String × JSON))
    (h : p.info ticker = Except.ok info) :
    ((get_company_info p ticker).2 = Except.ok (JSON.obj
      [("ticker", JSON.str ticker),
       ("company_info", JSON.obj
         [("longName", dictGet info "longName"),
          ("sector", dictGet info "sector"),
          ("industry", dictGet info "industry"),
          ("website", dictGet info "website"),
          ("marketCap", dictGet info "marketCap"),
          ("employees", dictGet info "fullTimeEmployees"),
          ("country", dictGet info "country"),
          ("city", dictGet info "city"),
          ("summary", dictGet info "longBusinessSummary"),
          ("currency", dictGet info "currency"),
          ("exchange", dictGet info "exchange")])])) ∧
    (∀ k, info.lookup k = none → dictGet info k = JSON.null) := by
  constructor
  · simp [get_company_info, h, catch400]
  · intro k hk
    simp [dictGet, hk]

/-- C5 witness: a concrete profile dict that carries only longName — the
info endpoint still succeeds and every absent key renders as null. -/
theorem info_missing_optional_field_null_witness :
    ((get_company_info pTest "AAPL").2 = Except.ok (JSON.obj
      [("ticker", JSON.str "AAPL"),
       ("company_info", JSON.obj
         [("longName", dictGet [("longName", JSON.str "Apple Inc.")] "longName"),
          ("sector", dictGet [("longName", JSON.str "Apple Inc.")] "sector"),
          ("industry", dictGet [("longName", JSON.str "Apple Inc.")] "industry"),
          ("website", dictGet [("longName", JSON.str "Apple Inc.")] "website"),
          ("marketCap", dictGet [("longName", JSON.str "Apple Inc.")] "marketCap"),
          ("employees", dictGet [("longName", JSON.str "Apple Inc.")] "fullTimeEmployees"),
          ("country", dictGet [("longName", JSON.str "Apple Inc.")] "country"),
          ("city", dictGet [("longName", JSON.str "Apple Inc.")] "city"),
          ("summary", dictGet [("longName", JSON.str "Apple Inc.")] "longBusinessSummary"),
          ("currency", dictGet [("longName", JSON.str "Apple Inc.")] "currency"),
          ("exchange", dictGet [("longName", JSON.str "Apple Inc.")] "exchange")])])) ∧
    (∀ k, ([("longName", JSON.str "Apple Inc.")] : List (String × JSON)).lookup k = none →
      dictGet [("longName", JSON.str "Apple Inc.")] k = JSON.null) :=
  info_missing_optional_field_null pTest "AAPL" [("longName", JSON.str "Apple Inc.")] rfl

/-- Helper: looking up the key just assigned finds the assigned value. -/
theorem lookup_dictSet_self (d : List (String × JSON)) (k : String) (v : JSON) :
    (dictSet d k v).lookup k = some v := by
  induction d with
  | nil => simp [dictSet, List.lookup]
  | cons kv rest ih =>
      by_cases hk : kv.1 = k
      · simp [dictSet, hk, List.lookup]
      · have hbeq : (k == kv.1) = false := beq_eq_false_iff_ne.mpr (fun h => hk h.symm)
        simp [dictSet, if_neg hk, List.lookup, hbeq, ih]

/-- Helper: assigning one key leaves lookups of other keys unchanged. -/
theorem lookup_dictSet_ne (d : List (String × JSON)) (k k' : String) (v : JSON)
    (h : k' ≠ k) : (dictSet d k v).lookup k' = d.lookup k' := by
  induction d with
  | nil => simp [dictSet, List.lookup, beq_eq_false_iff_ne.mpr h]
  | cons kv rest ih =>
      by_cases hk : kv.1 = k
      · simp [dictSet, hk, List.lookup, beq_eq_false_iff_ne.mpr h]
      · by_cases hk' : k' = kv.1
        · simp [dictSet, if_neg hk, List.lookup, hk']
        · simp [dictSet, if_neg hk, List.lookup, beq_eq_false_iff_ne.mpr hk', ih]

/-- Helper: the keys after an assignment are the old keys plus the assigned
key. -/
theorem mem_keys_dictSet (d : List (String × JSON)) (k k' : String) (v : JSON) :
    k' ∈ (dictSet d k v).map Prod.fst ↔ k' ∈ d.map Prod.fst ∨ k' = k := by
  induction d with
  | nil => simp [dictSet]
  | cons kv rest ih =>
      by_cases hk : kv.1 = k
      · simp [dictSet, hk]
        tauto
      · simp [dictSet, if_neg hk, ih]
        tauto

/-- Helper: dict assignment preserves distinctness of keys. -/
theorem keys_dictSet_nodup (d : List (String × JSON)) (k : String) (v : JSON)
    (h : (d.map Prod.fst).Nodup) : ((dictSet d k v).map Prod.fst).Nodup := by
  induction d with
  | nil => simp [dictSet]
  | cons kv rest ih =>
      rw [List.map_cons, List.nodup_cons] at h
      by_cases hk : kv.1 = k
      · simp only [dictSet, if_pos hk, List.map_cons, List.nodup_cons]
        exact ⟨hk ▸ h.1, h.2⟩
      · simp only [dictSet, if_neg hk, List.map_cons, List.nodup_cons]
        refine ⟨?_, ih h.2⟩
        rw [mem_keys_dictSet]
        rintro (hmem | heq)
        · exact h.1 hmem
        · exact hk heq

/-- Helper: the batch loop's dict, relative to any accumulator, binds each
processed symbol to its own entry and leaves other keys untouched. -/
theorem batchResults_lookup_aux (p : Provider) (l : List String)
    (acc : List (String × JSON)) (t : String) :
    (l.foldl (fun r s => dictSet r s (batchEntry p s)) acc).lookup t =
      if t ∈ l then some (batchEntry p t) else acc.lookup t := by
  induction l generalizing acc with
  | nil => simp
  | cons s l ih =>
      rw [List.foldl_cons, ih]
      by_cases ht : t ∈ l
      · simp [ht, List.mem_cons]
      · by_cases hts : t = s
        · subst hts
          simp [ht, lookup_dictSet_self]
        · simp [ht, hts, List.mem_cons, lookup_dictSet_ne acc s t (batchEntry p s) hts]

/-- Helper: the batch dict's keys are pairwise distinct. -/
theorem batchResults_keys_nodup (p : Provider) (tickers : String) :
    ((batchResults p tickers).map Prod.fst).Nodup := by
  have aux : ∀ (l : List String) (acc : List (String × JSON)),
      (acc.map Prod.fst).Nodup →
      ((l.foldl (fun r s => dictSet r s (batchEntry p s)) acc).map Prod.fst).Nodup := by
    intro l
    induction l with
    | nil =>
        intro acc h
        simpa using h
    | cons s l ih =>
        intro acc h
        exact ih _ (keys_dictSet_nodup _ _ _ h)
  simpa [batchResults] using aux (tickers.splitOn ",") [] (by simp)

/-- C3: the batch endpoint always succeeds with the accumulated per-symbol
dict: the result has exactly one key per input symbol (a symbol is a key
precisely when it occurs in the comma-split input, and keys are pairwise
distinct), a symbol whose fetch raised or returned no rows maps to an
object carrying an error field, and every non-empty symbol maps to its own
window's last close and volume — each entry depends only on that symbol's
upstream data, so failures cannot disturb the other entries. -/
theorem batch_one_key_per_symbol_and_error_isolation
    (p : Provider) (tickers : String) :
    ((get_multiple_stocks p tickers).2 =
      Except.ok (JSON.obj (batchResults p tickers))) ∧
    (((batchResults p tickers).map Prod.fst).Nodup) ∧
    (∀ t, t ∈ tickers.splitOn "," ↔
      (batchResults p tickers).lookup t = some (batchEntry p t)) ∧
    (∀ t e, p.history t "1d" "1d" = Except.error e →
      batchEntry p t =
        JSON.obj [("error", JSON.str ("Failed to fetch data: " ++ pyStr e))]) ∧
    (∀ t, p.history t "1d" "1d" = Except.ok [] →
      batchEntry p t = JSON.obj [("error", JSON.str "No data found")]) ∧
    (∀ t r rest, p.history t "1d" "1d" = Except.ok (r :: rest) →
      batchEntry p t = JSON.obj
        [("current_price", JSON.num ((r :: rest).getLast (List.cons_ne_nil r rest)).close),
         ("volume", JSON.int ((r :: rest).getLast (List.cons_ne_nil r rest)).volume)]) := by
  refine ⟨rfl, batchResults_keys_nodup p tickers, ?_, ?_, ?_, ?_⟩
  · intro t
    constructor
    · intro ht
      rw [batchResults, batchResults_lookup_aux, if_pos ht]
    · intro hl
      by_contra hnot
      rw [batchResults, batchResults_lookup_aux, if_neg hnot] at hl
      simp [List.lookup] at hl
  · intro t e he
    simp [batchEntry, he]
  · intro t he
    simp [batchEntry, he]
  · intro t r rest he
    simp [batchEntry, he]

/-- C3 witness: the batch guarantees instantiated at the concrete input
"AAPL,ZZZINVALID", where the second symbol's fetch raises upstream. -/
theorem batch_one_key_per_symbol_and_error_isolation_witness :
    ((get_multiple_stocks pTest "AAPL,ZZZINVALID").2 =
      Except.ok (JSON.obj (batchResults pTest "AAPL,ZZZINVALID"))) ∧
    (((batchResults pTest "AAPL,ZZZINVALID").map Prod.fst).Nodup) ∧
    (∀ t, t ∈ ("AAPL,ZZZINVALID".splitOn ",") ↔
      (batchResults pTest "AAPL,ZZZINVALID").lookup t = some (batchEntry pTest t)) ∧
    (∀ t e, pTest.history t "1d" "1d" = Except.error e →
      batchEntry pTest t =
        JSON.obj [("error", JSON.str ("Failed to fetch data: " ++ pyStr e))]) ∧
    (∀ t, pTest.history t "1d" "1d" = Except.ok [] →
      batchEntry pTest t = JSON.obj [("error", JSON.str "No data found")]) ∧
    (∀ t r rest, pTest.history t "1d" "1d" = Except.ok (r :: rest) →
      batchEntry pTest t = JSON.obj
        [("current_price", JSON.num ((r :: rest).getLast (List.cons_ne_nil r rest)).close),
         ("volume", JSON.int ((r :: rest).getLast (List.cons_ne_nil r rest)).volume)]) :=
  batch_one_key_per_symbol_and_error_isolation pTest "AAPL,ZZZINVALID"
